import Mathlib

/-!
Shallow embedding of the signald client layer (`mausignald/signald.py`) and of
the persisted-state repository (`mautrix_signal/db/disappearing_message.py`),
with theorems settling the specification claims about them.

Conventions of the embedding:
* The Python `Set[str]` field `_subscriptions` is modelled as a duplicate-free
  `List String`; `pyAdd` / `pyRemoveMem` mirror `set.add` / `set.remove`.
  Iteration order over a Python set is unspecified (hash-dependent), so every
  statement about iterating the set is quantified over an arbitrary
  permutation (`snapshot.Perm subs`) of the modelled set.
* A transport request that the code awaits is modelled by its outcome, passed
  in as an argument: `Except String Unit`, where `.ok ()` is a successful
  acknowledgment and `.error msg` is an `UnexpectedError` whose `str(e)` is
  `msg`.
* Dispatching an event through `_run_event_handler` is modelled by recording
  the event in an output list (registered handlers are outside this layer and
  do not mutate the client state).
-/

set_option autoImplicit false

namespace Signald

/-- Modelled from the spec: `WebsocketConnectionState` lives in the repository
module `mausignald/types.py`, which is not part of the sources; the spec's
data model lists the enumerated states carried by connection-state-change
events. -/
inductive WebsocketConnectionState where
  | CONNECTED
  | DISCONNECTED
  | AUTHENTICATION_FAILED
  | SOCKET_DISCONNECTED
  deriving DecidableEq, Repr

/-- Modelled from the spec: `WebsocketConnectionStateChangeEvent` lives in
`mausignald/types.py` (not in the sources); per the spec it carries the state,
the account it concerns, and an optional human-readable cause (the keyword
argument `exception` at the synthesis sites in `signald.py`). -/
structure WebsocketConnectionStateChangeEvent where
  state : WebsocketConnectionState
  account : String
  exception : Option String := none
  deriving DecidableEq, Repr

/-- Python `set.add`: insert the element if it is not already a member.
The list order is just the representation; no claim reads it directly. -/
def pyAdd (subs : List String) (u : String) : List String :=
  if u ∈ subs then subs else subs ++ [u]

/-- Python `set.remove` on a member: drop the element (on a non-member the
real `remove` raises `KeyError`; callers model that case separately). -/
def pyRemoveMem (subs : List String) (u : String) : List String :=
  subs.erase u

/-- Result of `SignaldClient.subscribe`: the updated `_subscriptions` set, the
boolean return value, and the events dispatched via `_run_event_handler`. -/
structure SubscribeResult where
  subs : List String
  ret : Bool
  events : List WebsocketConnectionStateChangeEvent
  deriving DecidableEq, Repr

/-- The exact error text that `subscribe` compares `str(e)` against. -/
def authFailureSignature : String := "[401] Authorization failed!"

/-- `SignaldClient.subscribe` (signald.py lines 93-109): await the
`subscribe` request; on success add the username to `_subscriptions` and
return `True`; on `UnexpectedError e` synthesize one connection-state-change
event whose state is `AUTHENTICATION_FAILED` exactly when
`str(e) == "[401] Authorization failed!"` and `DISCONNECTED` otherwise,
dispatch it, and return `False`. -/
def subscribe (subs : List String) (username : String) (req : Except String Unit) :
    SubscribeResult :=
  match req with
  | .ok _ => { subs := pyAdd subs username, ret := true, events := [] }
  | .error msg =>
      { subs := subs
        ret := false
        events :=
          [{ state :=
               if msg = authFailureSignature then
                 WebsocketConnectionState.AUTHENTICATION_FAILED
               else
                 WebsocketConnectionState.DISCONNECTED
             account := username }] }

/-- An uncaught Python exception escaping `unsubscribe` or `_from_row`:
`set.remove` raises `KeyError` when the element is absent (and the `except`
clause of `unsubscribe` catches only `UnexpectedError`); `cls(**None)` raises
`TypeError`. -/
inductive PyError where
  | keyError
  | typeError
  deriving DecidableEq, Repr

/-- `SignaldClient.unsubscribe` (signald.py lines 111-118): await the
`unsubscribe` request; on success `self._subscriptions.remove(username)`
(raising an uncaught `KeyError` when the username is not a member) and return
`True`; on `UnexpectedError` return `False` with the set untouched. No event
is synthesized on either path. -/
def unsubscribe (subs : List String) (username : String) (req : Except String Unit) :
    Except PyError (List String × Bool × List WebsocketConnectionStateChangeEvent) :=
  match req with
  | .ok _ =>
      if username ∈ subs then
        .ok (pyRemoveMem subs username, true, [])
      else
        .error PyError.keyError
  | .error _ => .ok (subs, false, [])

/-- Python truthiness of an optional string: `None` and `""` are falsy. -/
def pyTruthy : Option String → Bool
  | none => false
  | some s => !s.isEmpty

/-- Python `a or b` on optional strings: `a` when truthy, otherwise `b`. -/
def pyOr (a b : Option String) : Option String :=
  if pyTruthy a then a else b

/-- Python f-string rendering of an optional string: `None` prints as
`"None"`. -/
def pyStr : Option String → String
  | some s => s
  | none => "None"

/-- The dict stored under a result's `"addres"` key (sic — the code reads the
misspelled key, signald.py line 221), as consumed by `send`. -/
structure AddressData where
  number : Option String := none
  uuid : Option String := none
  deriving DecidableEq, Repr

/-- The dict under a result's `"proof_required_failure"` key, as consumed by
`send` (lines 235-251); `options` is the list the code tests with
`"RECAPTCHA" in options` / `"PUSH_CHALLENGE" in options`. -/
structure ProofRequiredFailure where
  options : List String := []
  retry_after : Option Int := none
  token : Option String := none
  message : Option String := none
  deriving DecidableEq, Repr

/-- One element of the `results` array of a send response, with exactly the
keys `send` reads: `addres` (absent key modelled as `none`, the code
defaulting it to `{}`), the `networkFailure` / `unregisteredFailure` flags
(default `False`), the `identityFailure` string (default `""`, tested by
truthiness), and the optional `proof_required_failure` dict (a present dict
is assumed non-empty, so `some` is truthy). -/
structure SendResultEntry where
  addres : Option AddressData := none
  networkFailure : Bool := false
  unregisteredFailure : Bool := false
  identityFailure : String := ""
  proof_required_failure : Option ProofRequiredFailure := none
  deriving DecidableEq, Repr

/-- `number = address.get("number") or address.get("uuid")` rendered into an
f-string (signald.py lines 221-222). -/
def sendNumber (e : SendResultEntry) : String :=
  let address := e.addres.getD {}
  pyStr (pyOr address.number address.uuid)

/-- Error line for a `networkFailure` result (line 225). -/
def networkFailureMsg (e : SendResultEntry) : String :=
  "Network failure occurred while sending message to " ++ (sendNumber e ++ ".")

/-- Line collected for an `unregisteredFailure` result (lines 227-229). -/
def unregisteredFailureMsg (e : SendResultEntry) : String :=
  "Unregistered failure occurred while sending message to " ++ (sendNumber e ++ ".")

/-- Error line for an `identityFailure` result (lines 231-234). -/
def identityFailureMsg (e : SendResultEntry) : String :=
  "Identity failure occurred while sending message to " ++
    (sendNumber e ++ (". New identity: " ++ e.identityFailure))

/-- Error line for a `proof_required_failure` result (lines 243-246). -/
def proofRequiredMsg (e : SendResultEntry) (p : ProofRequiredFailure) : String :=
  "Proof required failure occurred while sending message to " ++
    (sendNumber e ++ (". Message: " ++ pyStr p.message))

/-- The mutable locals of `send`'s classification loop (lines 216-218), plus
a count of the `submit_challenge` commands issued as a side effect. -/
structure SendAcc where
  errors : List String := []
  unregistered_failures : List String := []
  successful_send_count : Nat := 0
  submitChallengeCount : Nat := 0
  deriving DecidableEq, Repr

/-- One iteration of `send`'s classification loop over `results`
(signald.py lines 220-253), with the source's `if`/`elif` chain: network
failure, else unregistered failure (into the separate list), else identity
failure, else proof-required failure (error line always appended; then
`"RECAPTCHA" in options` appends a further error, and only otherwise
`"PUSH_CHALLENGE" in options` issues a `submit_challenge` command), else a
successful send. -/
def classifyStep (acc : SendAcc) (result : SendResultEntry) : SendAcc :=
  if result.networkFailure then
    { acc with errors := acc.errors ++ [networkFailureMsg result] }
  else if result.unregisteredFailure then
    { acc with
        unregistered_failures :=
          acc.unregistered_failures ++ [unregisteredFailureMsg result] }
  else if result.identityFailure ≠ "" then
    { acc with errors := acc.errors ++ [identityFailureMsg result] }
  else
    match result.proof_required_failure with
    | some p =>
        let acc1 := { acc with errors := acc.errors ++ [proofRequiredMsg result p] }
        if "RECAPTCHA" ∈ p.options then
          { acc1 with errors := acc1.errors ++ ["RECAPTCHA required."] }
        else if "PUSH_CHALLENGE" ∈ p.options then
          { acc1 with submitChallengeCount := acc1.submitChallengeCount + 1 }
        else acc1
    | none => { acc with successful_send_count := acc.successful_send_count + 1 }

/-- Observable outcome of `SignaldClient.send` after the response arrived:
the final error list (after the unregistered-failure promotion of line 258),
the collected unregistered-failure lines, the success count, the number of
`submit_challenge` commands issued, and the raised message (`none` when the
call returns silently). -/
structure SendOutcome where
  errors : List String
  unregistered_failures : List String
  successful_send_count : Nat
  submitChallengeCount : Nat
  raises : Option String
  deriving DecidableEq, Repr

/-- `SignaldClient.send`, result-classification part (signald.py lines
216-261): classify each result in order; promote the unregistered-failure
lines into `errors` exactly when their number equals `len(results)`; raise
`Exception("\n".join(errors))` if and only if `errors` is non-empty. -/
def send (results : List SendResultEntry) : SendOutcome :=
  let acc := results.foldl classifyStep {}
  let errors :=
    if acc.unregistered_failures.length = results.length then
      acc.errors ++ acc.unregistered_failures
    else
      acc.errors
  { errors := errors
    unregistered_failures := acc.unregistered_failures
    successful_send_count := acc.successful_send_count
    submitChallengeCount := acc.submitChallengeCount
    raises :=
      if errors.isEmpty then none
      else some (String.intercalate "\n" errors) }

/-- The error lines a single result contributes to `errors` during the loop
(not counting the promotion step). -/
def entryErrors (e : SendResultEntry) : List String :=
  if e.networkFailure then [networkFailureMsg e]
  else if e.unregisteredFailure then []
  else if e.identityFailure ≠ "" then [identityFailureMsg e]
  else
    match e.proof_required_failure with
    | some p =>
        [proofRequiredMsg e p] ++
          (if "RECAPTCHA" ∈ p.options then ["RECAPTCHA required."] else [])
    | none => []

/-- The lines a single result contributes to `unregistered_failures`. -/
def entryUnregistered (e : SendResultEntry) : List String :=
  if e.networkFailure then []
  else if e.unregisteredFailure then [unregisteredFailureMsg e]
  else []

/-- A single result's contribution to `successful_send_count`. -/
def entrySuccess (e : SendResultEntry) : Nat :=
  if e.networkFailure then 0
  else if e.unregisteredFailure then 0
  else if e.identityFailure ≠ "" then 0
  else
    match e.proof_required_failure with
    | some _ => 0
    | none => 1

/-- The number of `submit_challenge` commands a single result triggers. -/
def entryChallenges (e : SendResultEntry) : Nat :=
  if e.networkFailure then 0
  else if e.unregisteredFailure then 0
  else if e.identityFailure ≠ "" then 0
  else
    match e.proof_required_failure with
    | some p =>
        if "RECAPTCHA" ∈ p.options then 0
        else if "PUSH_CHALLENGE" ∈ p.options then 1
        else 0
    | none => 0

/-- The error lines collected by the whole loop, in order. -/
def baseErrors (results : List SendResultEntry) : List String :=
  (results.map entryErrors).flatten

/-- The unregistered-failure lines collected by the whole loop, in order. -/
def unregisteredMsgs (results : List SendResultEntry) : List String :=
  (results.map entryUnregistered).flatten

/-- State threaded through the resubscribe loop: the `_subscriptions` set, the
usernames for which a `subscribe` command has been issued (in issue order),
and the events dispatched so far. -/
structure ResubscribeResult where
  subs : List String
  commands : List String
  events : List WebsocketConnectionStateChangeEvent
  deriving Repr

/-- One iteration of the `_resubscribe` loop body: `await self.subscribe(u)`,
which always issues the `subscribe` request first (so `u` is recorded as an
issued command regardless of outcome). -/
def resubscribeStep (req : String → Except String Unit) (acc : ResubscribeResult)
    (u : String) : ResubscribeResult :=
  let r := subscribe acc.subs u (req u)
  { subs := r.subs, commands := acc.commands ++ [u], events := acc.events ++ r.events }

/-- `SignaldClient._resubscribe` (signald.py lines 120-124): on the CONNECT
signal, if `_subscriptions` is non-empty, iterate `list(self._subscriptions)`
— a snapshot whose order is the set's (unspecified) iteration order, passed
here as `snapshot` — awaiting `subscribe` for each username in turn. -/
def _resubscribe (subs snapshot : List String) (req : String → Except String Unit) :
    ResubscribeResult :=
  if subs.isEmpty then { subs := subs, commands := [], events := [] }
  else snapshot.foldl (resubscribeStep req) { subs := subs, commands := [], events := [] }

/-- `SignaldClient._on_disconnect` (signald.py lines 126-135): on the
DISCONNECT signal, if `_subscriptions` is non-empty, dispatch one
`SOCKET_DISCONNECTED` event with the fixed cause for each username as the set
is iterated (order passed as `snapshot`); the set itself is not mutated. -/
def _on_disconnect (subs snapshot : List String) :
    List WebsocketConnectionStateChangeEvent × List String :=
  if subs.isEmpty then ([], subs)
  else
    (snapshot.map fun u =>
      { state := WebsocketConnectionState.SOCKET_DISCONNECTED
        account := u
        exception := some "Disconnected from signald" }, subs)

/-- A result with none of the failure keys: counted as a successful send. -/
def scenarioSuccess : SendResultEntry := {}

/-- An unregistered-failure result for number `+1`. -/
def scenarioUnreg1 : SendResultEntry :=
  { addres := some { number := some "+1" }, unregisteredFailure := true }

/-- An unregistered-failure result for number `+2`. -/
def scenarioUnreg2 : SendResultEntry :=
  { addres := some { number := some "+2" }, unregisteredFailure := true }

/-- A proof-required failure offering both remediation options. -/
def proofBoth : ProofRequiredFailure := { options := ["RECAPTCHA", "PUSH_CHALLENGE"] }

/-- A result carrying `proofBoth`. -/
def proofEntryBoth : SendResultEntry := { proof_required_failure := some proofBoth }

/-- A proof-required failure offering only the automatic challenge option. -/
def proofPush : ProofRequiredFailure := { options := ["PUSH_CHALLENGE"] }

/-- A result carrying `proofPush`. -/
def proofEntryPush : SendResultEntry := { proof_required_failure := some proofPush }

/-- Modelled from the spec: the error taxonomy lives in
`mausignald/errors.py`, which is not in the sources; per the spec,
`UnexpectedResponse` carries the actual response tag (exposed as `resp_type`
at signald.py line 356) and other transport failures carry an opaque
message. -/
inductive ReqError where
  | unexpectedResponse (resp_type : String)
  | transport (msg : String)
  deriving DecidableEq, Repr

/-- `SignaldClient.get_profile` (signald.py lines 346-359): await the
`get_profile` request (whose outcome is passed in; the deserialized profile
payload stays abstract as `α`); catch `UnexpectedResponse` and return `None`
when its `resp_type` is exactly `"profile_not_available"`, re-raise any other
`UnexpectedResponse`, and let every other error propagate unchanged. -/
def get_profile {α : Type} (resp : Except ReqError α) : Except ReqError (Option α) :=
  match resp with
  | .ok d => .ok (some d)
  | .error (ReqError.unexpectedResponse t) =>
      if t = "profile_not_available" then .ok none
      else .error (ReqError.unexpectedResponse t)
  | .error e => .error e

/-- Outcome of `SignaldClient.trust` up to the transport call: either a
`ValueError` raised during argument validation (before any request is
issued), or the `trust` request issued with the single chosen argument. -/
inductive TrustResult where
  | validationError (msg : String)
  | requested (field : String) (value : String)
  deriving DecidableEq, Repr

/-- Whether a trust outcome issued the request. -/
def TrustResult.isRequested : TrustResult → Bool
  | .requested _ _ => true
  | .validationError _ => false

/-- `SignaldClient.trust`, argument validation (signald.py lines 377-400):
`if safety_number:` (Python truthiness) — nested `if qr_code_data:` raises
`ValueError`, else the request carries `safety_number`; `elif qr_code_data:`
the request carries `qr_code_data`; else raises `ValueError`. Both raises
happen before `request_v1` is reached, which the `validationError`
constructor encodes. -/
def trust (safety_number qr_code_data : Option String) : TrustResult :=
  if pyTruthy safety_number then
    if pyTruthy qr_code_data then
      .validationError "only one of safety_number and qr_code_data must be set"
    else
      .requested "safety_number" (safety_number.getD "")
  else if pyTruthy qr_code_data then
    .requested "qr_code_data" (qr_code_data.getD "")
  else
    .validationError "safety_number or qr_code_data is required"

end Signald

namespace SignalDb

/-- `mautrix_signal/db/disappearing_message.py`: one record of the
`disappearing_message` table, keyed by `(room_id, mxid)`, as selected by the
queries (`room_id, mxid, expiration_seconds, expiration_ts`). The same shape
serves as the `asyncpg.Record` row that `_from_row` splats into the class. -/
structure DisappearingMessage where
  room_id : String
  mxid : String
  expiration_seconds : Int
  expiration_ts : Option Int := none
  deriving DecidableEq, Repr

/-- A failure reported by the database driver while executing a query. -/
inductive DbError where
  | failure (msg : String)
  deriving DecidableEq, Repr

/-- `db.fetchrow` on the `get` query (lines 71-76): the first row of the
table matching `room_id = $1 AND mxid = $2`, or `None` when no row
matches. -/
def fetchrow (table : List DisappearingMessage) (room_id mxid : String) :
    Option DisappearingMessage :=
  table.find? (fun r => r.room_id == room_id && r.mxid == mxid)

/-- `DisappearingMessage._from_row` (lines 65-67): `cls(**row)`; splatting a
`None` row raises `TypeError`. -/
def _from_row : Option DisappearingMessage →
    Except Signald.PyError DisappearingMessage
  | none => .error Signald.PyError.typeError
  | some r => .ok r

/-- The body of `get`'s `try` block (line 78): await `db.fetchrow` (its
outcome, possibly a driver failure, passed in) and feed the row to
`_from_row`; either step can raise. -/
def tryBody (fetched : Except DbError (Option DisappearingMessage)) :
    Except (Sum DbError Signald.PyError) DisappearingMessage :=
  match fetched with
  | .error e => .error (Sum.inl e)
  | .ok row =>
      match _from_row row with
      | .error pe => .error (Sum.inr pe)
      | .ok dm => .ok dm

/-- `DisappearingMessage.get` (lines 69-80): the `try` body's value, with
`except Exception: return None` catching every failure. -/
def get (fetched : Except DbError (Option DisappearingMessage)) :
    Option DisappearingMessage :=
  match tryBody fetched with
  | .ok dm => some dm
  | .error _ => none

end SignalDb

namespace Signald

theorem classifyStep_eq (acc : SendAcc) (e : SendResultEntry) :
    classifyStep acc e =
      { errors := acc.errors ++ entryErrors e
        unregistered_failures := acc.unregistered_failures ++ entryUnregistered e
        successful_send_count := acc.successful_send_count + entrySuccess e
        submitChallengeCount := acc.submitChallengeCount + entryChallenges e } := by
  rcases acc with ⟨aerr, aunreg, asucc, ach⟩
  rcases e with ⟨addr, net, unreg, idf, prf⟩
  cases net <;> cases unreg <;> rcases prf with _ | p <;>
    simp only [classifyStep, entryErrors, entryUnregistered, entrySuccess,
      entryChallenges] <;>
    split_ifs <;> simp

theorem send_foldl (results : List SendResultEntry) (acc : SendAcc) :
    results.foldl classifyStep acc =
      { errors := acc.errors ++ baseErrors results
        unregistered_failures := acc.unregistered_failures ++ unregisteredMsgs results
        successful_send_count := acc.successful_send_count + (results.map entrySuccess).sum
        submitChallengeCount :=
          acc.submitChallengeCount + (results.map entryChallenges).sum } := by
  induction results generalizing acc with
  | nil =>
      rcases acc with ⟨aerr, aunreg, asucc, ach⟩
      simp [baseErrors, unregisteredMsgs]
  | cons e t ih =>
      rw [List.foldl_cons, classifyStep_eq, ih]
      simp [baseErrors, unregisteredMsgs, Nat.add_assoc]

theorem resubscribe_foldl_commands (req : String → Except String Unit)
    (snapshot : List String) (acc : ResubscribeResult) :
    (snapshot.foldl (resubscribeStep req) acc).commands = acc.commands ++ snapshot := by
  induction snapshot generalizing acc with
  | nil => simp
  | cons u t ih => simp [resubscribeStep, ih]

theorem string_data_append (p q : String) : (p ++ q).data = p.data ++ q.data := by
  rcases p with ⟨pd⟩
  rcases q with ⟨qd⟩
  rfl

theorem string_ne_of_head_ne (s t : String) (h : s.data.head? ≠ t.data.head?) :
    s ≠ t :=
  fun he => h (by rw [he])

theorem string_head_append (p s : String) (c : Char) (hp : p.data.head? = some c) :
    (p ++ s).data.head? = some c := by
  rw [string_data_append]
  cases hd : p.data with
  | nil => rw [hd] at hp; cases hp
  | cons x xs =>
      rw [hd] at hp
      simp only [List.head?_cons, Option.some.injEq] at hp
      simp [hd, hp]

theorem networkFailureMsg_head (e : SendResultEntry) :
    (networkFailureMsg e).data.head? = some 'N' :=
  string_head_append _ _ _ (by decide)

theorem unregisteredFailureMsg_head (e : SendResultEntry) :
    (unregisteredFailureMsg e).data.head? = some 'U' :=
  string_head_append _ _ _ (by decide)

theorem identityFailureMsg_head (e : SendResultEntry) :
    (identityFailureMsg e).data.head? = some 'I' :=
  string_head_append _ _ _ (by decide)

theorem proofRequiredMsg_head (e : SendResultEntry) (p : ProofRequiredFailure) :
    (proofRequiredMsg e p).data.head? = some 'P' :=
  string_head_append _ _ _ (by decide)

theorem unregMsg_not_mem_entryErrors (e e' : SendResultEntry) :
    unregisteredFailureMsg e ∉ entryErrors e' := by
  have hU := unregisteredFailureMsg_head e
  unfold entryErrors
  split_ifs with h1 h2 h3
  · simp only [List.mem_singleton]
    exact string_ne_of_head_ne _ _ (by rw [hU, networkFailureMsg_head]; decide)
  · simp
  · simp only [List.mem_singleton]
    exact string_ne_of_head_ne _ _ (by rw [hU, identityFailureMsg_head]; decide)
  · cases hp : e'.proof_required_failure with
    | none => simp
    | some p =>
        intro hmem
        simp only [List.singleton_append] at hmem
        rcases List.mem_cons.mp hmem with hm | hm
        · exact string_ne_of_head_ne _ _
            (by rw [hU, proofRequiredMsg_head]; decide) hm
        · by_cases hr : "RECAPTCHA" ∈ p.options
          · rw [if_pos hr] at hm
            exact string_ne_of_head_ne _ _ (by rw [hU]; decide)
              (List.mem_singleton.mp hm)
          · rw [if_neg hr] at hm
            cases hm

theorem mem_unregisteredMsgs (results : List SendResultEntry) (m : String)
    (hm : m ∈ unregisteredMsgs results) :
    ∃ e ∈ results, m = unregisteredFailureMsg e := by
  unfold unregisteredMsgs at hm
  rcases List.mem_flatten.mp hm with ⟨l, hl, hml⟩
  rcases List.mem_map.mp hl with ⟨e, he, rfl⟩
  refine ⟨e, he, ?_⟩
  unfold entryUnregistered at hml
  split_ifs at hml
  · cases hml
  · simpa using hml
  · cases hml

theorem unregMsg_not_mem_baseErrors (results : List SendResultEntry)
    (e : SendResultEntry) :
    unregisteredFailureMsg e ∉ baseErrors results := by
  intro hmem
  unfold baseErrors at hmem
  rcases List.mem_flatten.mp hmem with ⟨l, hl, hml⟩
  rcases List.mem_map.mp hl with ⟨e', _, rfl⟩
  exact unregMsg_not_mem_entryErrors e e' hml

theorem send_errors_eq (results : List SendResultEntry) :
    (send results).errors =
      if (unregisteredMsgs results).length = results.length then
        baseErrors results ++ unregisteredMsgs results
      else
        baseErrors results := by
  simp [send, send_foldl]

theorem send_raises_eq (results : List SendResultEntry) :
    (send results).raises =
      if (send results).errors.isEmpty then none
      else some (String.intercalate "\n" (send results).errors) := rfl

theorem send_challenges_eq (results : List SendResultEntry) :
    (send results).submitChallengeCount = (results.map entryChallenges).sum := by
  simp [send, send_foldl]

/-- C1: a send call raises if and only if the final error list is non-empty;
the unregistered-failure lines are promoted into the error list exactly when
their number equals the total number of results, and otherwise none of them
occurs in the raised error; concretely, 1 success + 2 unregistered failures
out of 3 results succeeds silently (1/3 delivered, 2 unregistered failures),
while 2 unregistered failures out of 2 results raises with both lines. -/
theorem C1_send_error_aggregation (results : List SendResultEntry) :
    ((send results).raises.isSome ↔ (send results).errors ≠ []) ∧
    ((unregisteredMsgs results).length = results.length →
      (send results).errors = baseErrors results ++ unregisteredMsgs results) ∧
    ((unregisteredMsgs results).length ≠ results.length →
      (send results).errors = baseErrors results ∧
        ∀ m ∈ unregisteredMsgs results, m ∉ (send results).errors) ∧
    (send [scenarioSuccess, scenarioUnreg1, scenarioUnreg2]).raises = none ∧
    (send [scenarioSuccess, scenarioUnreg1, scenarioUnreg2]).successful_send_count = 1 ∧
    (send [scenarioSuccess, scenarioUnreg1, scenarioUnreg2]).unregistered_failures.length = 2 ∧
    (send [scenarioUnreg1, scenarioUnreg2]).errors =
      [unregisteredFailureMsg scenarioUnreg1, unregisteredFailureMsg scenarioUnreg2] ∧
    (send [scenarioUnreg1, scenarioUnreg2]).raises =
      some (unregisteredFailureMsg scenarioUnreg1 ++
        ("\n" ++ unregisteredFailureMsg scenarioUnreg2)) := by
  refine ⟨?_, fun hlen => ?_, fun hlen => ⟨?_, ?_⟩, by decide, by decide, by decide,
    by decide, by decide⟩
  · cases h : (send results).errors <;> simp [send_raises_eq, h]
  · rw [send_errors_eq, if_pos hlen]
  · rw [send_errors_eq, if_neg hlen]
  · intro m hm
    rcases mem_unregisteredMsgs results m hm with ⟨e, _, rfl⟩
    rw [send_errors_eq, if_neg hlen]
    exact unregMsg_not_mem_baseErrors results e

/-- C1 witness: the promotion hypothesis discharged on the all-unregistered
two-recipient send, and the non-promotion hypothesis on the 1-success,
2-unregistered three-recipient send. -/
theorem C1_send_error_aggregation_witness :
    ((unregisteredMsgs [scenarioUnreg1, scenarioUnreg2]).length =
        ([scenarioUnreg1, scenarioUnreg2] : List SendResultEntry).length ∧
      (send [scenarioUnreg1, scenarioUnreg2]).errors =
        baseErrors [scenarioUnreg1, scenarioUnreg2] ++
          unregisteredMsgs [scenarioUnreg1, scenarioUnreg2]) ∧
    ((unregisteredMsgs [scenarioSuccess, scenarioUnreg1, scenarioUnreg2]).length ≠
        ([scenarioSuccess, scenarioUnreg1, scenarioUnreg2] : List SendResultEntry).length ∧
      (send [scenarioSuccess, scenarioUnreg1, scenarioUnreg2]).errors =
        baseErrors [scenarioSuccess, scenarioUnreg1, scenarioUnreg2]) :=
  ⟨⟨by decide,
      (C1_send_error_aggregation [scenarioUnreg1, scenarioUnreg2]).2.1 (by decide)⟩,
    ⟨by decide,
      ((C1_send_error_aggregation
        [scenarioSuccess, scenarioUnreg1, scenarioUnreg2]).2.2.1 (by decide)).1⟩⟩

/-- C2 counterexample: the claim says a `submit_challenge` command is issued
whenever the offered options include the automatic-challenge option. But the
code tests `"RECAPTCHA" in options` first: on a result whose options list
both `RECAPTCHA` and `PUSH_CHALLENGE`, no `submit_challenge` is issued even
though `PUSH_CHALLENGE` is offered (the call still fails). -/
theorem C2_push_challenge_counterexample :
    proofEntryBoth.proof_required_failure = some proofBoth ∧
    "PUSH_CHALLENGE" ∈ proofBoth.options ∧
    (send [proofEntryBoth]).submitChallengeCount = 0 ∧
    (send [proofEntryBoth]).raises.isSome = true :=
  ⟨rfl, by decide, by decide, by decide⟩

/-- C2 amended: for every send result reporting a proof-required failure, a
proof-required message is appended to the error list and the call fails; a
`submit_challenge` command is issued for that result exactly when the offered
options include the automatic-challenge option `PUSH_CHALLENGE` and do not
include `RECAPTCHA` (which the code checks first); when `RECAPTCHA` is
offered the failure is left as a plain error with no challenge submitted. -/
theorem C2_proof_required_failure_handling (results : List SendResultEntry)
    (e : SendResultEntry) (p : ProofRequiredFailure) (he : e ∈ results)
    (hnet : e.networkFailure = false) (hunreg : e.unregisteredFailure = false)
    (hid : e.identityFailure = "") (hp : e.proof_required_failure = some p) :
    proofRequiredMsg e p ∈ (send results).errors ∧
    (send results).raises.isSome = true ∧
    (send results).submitChallengeCount = (results.map entryChallenges).sum ∧
    entryChallenges e =
      (if "RECAPTCHA" ∈ p.options then 0
       else if "PUSH_CHALLENGE" ∈ p.options then 1 else 0) ∧
    ("PUSH_CHALLENGE" ∈ p.options → "RECAPTCHA" ∉ p.options →
      1 ≤ (send results).submitChallengeCount) := by
  have hentry : proofRequiredMsg e p ∈ entryErrors e := by
    unfold entryErrors
    rw [hnet, hunreg, hid, hp]
    simp
  have hbase : proofRequiredMsg e p ∈ baseErrors results :=
    List.mem_flatten.mpr ⟨entryErrors e, List.mem_map_of_mem _ he, hentry⟩
  have herr : proofRequiredMsg e p ∈ (send results).errors := by
    rw [send_errors_eq]
    split_ifs
    · exact List.mem_append_left _ hbase
    · exact hbase
  have hne : (send results).errors ≠ [] := by
    intro h0
    rw [h0] at herr
    cases herr
  refine ⟨herr, ?_, send_challenges_eq results, ?_, fun hpc hrc => ?_⟩
  · cases hcase : (send results).errors with
    | nil => exact absurd hcase hne
    | cons a t => rw [send_raises_eq, hcase]; rfl
  · simp [entryChallenges, hnet, hunreg, hid, hp]
  · have h1 : entryChallenges e = 1 := by
      simp [entryChallenges, hnet, hunreg, hid, hp, hrc, hpc]
    rw [send_challenges_eq]
    have hle := List.single_le_sum (l := results.map entryChallenges)
      (fun x _ => Nat.zero_le x) (entryChallenges e)
      (List.mem_map_of_mem entryChallenges he)
    rwa [h1] at hle

/-- C2 witness: a single result offering only `PUSH_CHALLENGE` gets its
challenge submitted and the call still fails. -/
theorem C2_proof_required_failure_handling_witness :
    proofEntryPush ∈ ([proofEntryPush] : List SendResultEntry) ∧
    proofRequiredMsg proofEntryPush proofPush ∈ (send [proofEntryPush]).errors ∧
    (send [proofEntryPush]).raises.isSome = true ∧
    1 ≤ (send [proofEntryPush]).submitChallengeCount := by
  have h := C2_proof_required_failure_handling [proofEntryPush] proofEntryPush
    proofPush (by simp) rfl rfl rfl rfl
  exact ⟨by simp, h.1, h.2.1, h.2.2.2.2 (by decide) (by decide)⟩

/-- C3: the subscription set is mutated only on acknowledged requests: a
successful subscribe adds the account and returns success; a failed subscribe
leaves the set unchanged (so an account not already present stays out) and
returns failure; a failed unsubscribe leaves the set untouched, returns
failure, and synthesizes no event; a successful unsubscribe of a member
removes exactly that member. -/
theorem C3_subscription_set_follows_acknowledgments
    (subs : List String) (u msg : String) :
    ((subscribe subs u (.ok ())).subs = pyAdd subs u ∧
      (subscribe subs u (.ok ())).ret = true) ∧
    ((subscribe subs u (.error msg)).subs = subs ∧
      (subscribe subs u (.error msg)).ret = false) ∧
    (u ∉ subs → u ∉ (subscribe subs u (.error msg)).subs) ∧
    (unsubscribe subs u (.error msg) = .ok (subs, false, [])) ∧
    (u ∈ subs → unsubscribe subs u (.ok ()) = .ok (pyRemoveMem subs u, true, [])) := by
  refine ⟨⟨rfl, rfl⟩, ⟨rfl, rfl⟩, fun h => h, rfl, fun h => ?_⟩
  simp [unsubscribe, h]

/-- C3 witness: concrete successful unsubscribe of a member and failed
subscribe of a non-member. -/
theorem C3_subscription_set_follows_acknowledgments_witness :
    ("a" ∈ (["a"] : List String) ∧
      unsubscribe ["a"] "a" (.ok ()) = .ok (pyRemoveMem ["a"] "a", true, [])) ∧
    ("b" ∉ (["a"] : List String) ∧
      "b" ∉ (subscribe ["a"] "b" (.error "boom")).subs) :=
  ⟨⟨by decide,
      (C3_subscription_set_follows_acknowledgments ["a"] "a" "boom").2.2.2.2 (by decide)⟩,
    ⟨by decide,
      (C3_subscription_set_follows_acknowledgments ["a"] "b" "boom").2.2.1 (by decide)⟩⟩

/-- C4: a failed subscribe dispatches exactly one connection-state-change
event, for the requested account, whose state is `AUTHENTICATION_FAILED` if
and only if the error text is exactly `"[401] Authorization failed!"` (and
`DISCONNECTED` otherwise), and subscribe returns failure. -/
theorem C4_subscribe_failure_event (subs : List String) (u msg : String) :
    (subscribe subs u (.error msg)).events =
      [{ state :=
           if msg = authFailureSignature then
             WebsocketConnectionState.AUTHENTICATION_FAILED
           else
             WebsocketConnectionState.DISCONNECTED
         account := u }] ∧
    (subscribe subs u (.error msg)).events.length = 1 ∧
    (∀ e ∈ (subscribe subs u (.error msg)).events,
      e.account = u ∧
        (e.state = WebsocketConnectionState.AUTHENTICATION_FAILED ↔
          msg = authFailureSignature) ∧
        (msg ≠ authFailureSignature →
          e.state = WebsocketConnectionState.DISCONNECTED)) ∧
    (subscribe subs u (.error msg)).ret = false := by
  refine ⟨rfl, rfl, ?_, rfl⟩
  intro e he
  simp only [subscribe, List.mem_singleton] at he
  subst he
  rcases eq_or_ne msg authFailureSignature with h | h <;> simp [h]

/-- C4 witness: concrete failures with the authorization signature and with
another error text. -/
theorem C4_subscribe_failure_event_witness :
    (∀ e ∈ (subscribe [] "a" (.error "[401] Authorization failed!")).events,
      e.account = "a" ∧
        (e.state = WebsocketConnectionState.AUTHENTICATION_FAILED ↔
          "[401] Authorization failed!" = authFailureSignature) ∧
        ("[401] Authorization failed!" ≠ authFailureSignature →
          e.state = WebsocketConnectionState.DISCONNECTED)) ∧
    (∀ e ∈ (subscribe [] "a" (.error "timeout")).events,
      e.account = "a" ∧
        (e.state = WebsocketConnectionState.AUTHENTICATION_FAILED ↔
          "timeout" = authFailureSignature) ∧
        ("timeout" ≠ authFailureSignature →
          e.state = WebsocketConnectionState.DISCONNECTED)) :=
  ⟨(C4_subscribe_failure_event [] "a" "[401] Authorization failed!").2.2.1,
    (C4_subscribe_failure_event [] "a" "timeout").2.2.1⟩

/-- C5 counterexample: the claim asserts that with subscription set
`{x, y}` (insertion order x then y, here the modelled set `["x", "y"]`) the
resubscribe commands are issued x then y. But `list(set)` enumerates a Python
set in an unspecified, hash-dependent order: the enumeration `["y", "x"]` is
a valid iteration order of that set (a permutation of it), and with it the
issued command sequence is y then x, not x then y. -/
theorem C5_resubscribe_insertion_order_counterexample :
    List.Perm ["y", "x"] ["x", "y"] ∧
    (_resubscribe ["x", "y"] ["y", "x"] (fun _ => .ok ())).commands = ["y", "x"] ∧
    (["y", "x"] : List String) ≠ ["x", "y"] := by
  refine ⟨by decide, ?_, by decide⟩
  rfl

/-- C5 amended: on CONNECT with a non-empty subscription set, a subscribe
command is issued sequentially for exactly the accounts in the snapshot taken
at the start of the loop — the command sequence equals the snapshot, hence
exactly one resubscribe per tracked account — in the snapshot's order, which
is the set's unspecified iteration order (not necessarily insertion order);
with an empty set no command is issued. -/
theorem C5_resubscribe_snapshot_commands (subs snapshot : List String)
    (hperm : snapshot.Perm subs) (hnodup : subs.Nodup)
    (req : String → Except String Unit) :
    (subs ≠ [] → (_resubscribe subs snapshot req).commands = snapshot) ∧
    (subs = [] → (_resubscribe subs snapshot req).commands = []) ∧
    (∀ u ∈ subs, snapshot.count u = 1) ∧
    (∀ u, u ∉ subs → snapshot.count u = 0) := by
  refine ⟨fun hne => ?_, fun he => ?_, fun u hu => ?_, fun u hu => ?_⟩
  · rw [_resubscribe, if_neg (by simpa using hne)]
    simpa using resubscribe_foldl_commands req snapshot _
  · rw [_resubscribe, if_pos (by simpa using he)]
  · rw [hperm.count_eq]
    exact List.count_eq_one_of_mem hnodup hu
  · rw [hperm.count_eq]
    exact List.count_eq_zero_of_not_mem hu

/-- C5 witness: concrete two-account set resubscribed via the enumeration
`["y", "x"]`. -/
theorem C5_resubscribe_snapshot_commands_witness :
    (_resubscribe ["x", "y"] ["y", "x"] (fun _ => .ok ())).commands = ["y", "x"] ∧
    (["y", "x"] : List String).count "x" = 1 := by
  have h := C5_resubscribe_snapshot_commands ["x", "y"] ["y", "x"]
    (by decide) (by decide) (fun _ => .ok ())
  exact ⟨h.1 (by decide), h.2.2.1 "x" (by decide)⟩

/-- C6: on DISCONNECT, exactly one `SOCKET_DISCONNECTED` event with the fixed
cause `"Disconnected from signald"` is dispatched per account in the
subscription set (the dispatched accounts are a permutation of the set, each
occurring once), and the subscription set is unchanged afterwards. -/
theorem C6_on_disconnect_events (subs snapshot : List String)
    (hperm : snapshot.Perm subs) (hnodup : subs.Nodup) :
    (_on_disconnect subs snapshot).2 = subs ∧
    (_on_disconnect subs snapshot).1.length = subs.length ∧
    ((_on_disconnect subs snapshot).1.map (fun e => e.account)).Perm subs ∧
    (∀ e ∈ (_on_disconnect subs snapshot).1,
      e.state = WebsocketConnectionState.SOCKET_DISCONNECTED ∧
        e.exception = some "Disconnected from signald") ∧
    (∀ u ∈ subs,
      ((_on_disconnect subs snapshot).1.map (fun e => e.account)).count u = 1) := by
  by_cases hsubs : subs = []
  · subst hsubs
    have hsnap : snapshot = [] := hperm.eq_nil
    subst hsnap
    simp [_on_disconnect]
  · have hne : subs.isEmpty = false := by simpa using hsubs
    rw [_on_disconnect, if_neg (by simp [hne])]
    have hmap : (snapshot.map (fun u =>
        ({ state := WebsocketConnectionState.SOCKET_DISCONNECTED
           account := u
           exception := some "Disconnected from signald" }
          : WebsocketConnectionStateChangeEvent))).map (fun e => e.account) = snapshot := by
      rw [List.map_map]
      exact List.map_id snapshot
    refine ⟨rfl, by simpa using hperm.length_eq, by rw [hmap]; exact hperm, ?_, ?_⟩
    · intro e he
      rcases List.mem_map.mp he with ⟨u, _, hu⟩
      subst hu
      exact ⟨rfl, rfl⟩
    · intro u hu
      rw [hmap, hperm.count_eq]
      exact List.count_eq_one_of_mem hnodup hu

/-- C6 witness: concrete disconnect with subscription set `{x, y}`. -/
theorem C6_on_disconnect_events_witness :
    (_on_disconnect ["x", "y"] ["y", "x"]).2 = ["x", "y"] ∧
    (_on_disconnect ["x", "y"] ["y", "x"]).1.length = (["x", "y"] : List String).length ∧
    ((_on_disconnect ["x", "y"] ["y", "x"]).1.map (fun e => e.account)).count "y" = 1 := by
  have h := C6_on_disconnect_events ["x", "y"] ["y", "x"] (by decide) (by decide)
  exact ⟨h.1, h.2.1, h.2.2.2.2 "y" (by decide)⟩

/-- C7: `get_profile` returns `None` exactly on an unexpected-response error
tagged `profile_not_available`; an unexpected-response error with any other
tag, and any transport error, propagates unchanged; a successful response
deserializes to a present profile. -/
theorem C7_get_profile_error_handling {α : Type} (d : α) (t msg : String) :
    get_profile (.ok d) = .ok (some d) ∧
    get_profile (α := α)
        (.error (ReqError.unexpectedResponse "profile_not_available")) = .ok none ∧
    (t ≠ "profile_not_available" →
      get_profile (α := α) (.error (ReqError.unexpectedResponse t)) =
        .error (ReqError.unexpectedResponse t)) ∧
    get_profile (α := α) (.error (ReqError.transport msg)) =
      .error (ReqError.transport msg) := by
  refine ⟨rfl, rfl, fun ht => ?_, rfl⟩
  simp [get_profile, ht]

/-- C7 witness: concrete tags. -/
theorem C7_get_profile_error_handling_witness :
    "user_not_registered" ≠ "profile_not_available" ∧
    get_profile (α := Unit) (.error (ReqError.unexpectedResponse "user_not_registered")) =
      .error (ReqError.unexpectedResponse "user_not_registered") :=
  ⟨by decide,
    (C7_get_profile_error_handling () "user_not_registered" "x").2.2.1 (by decide)⟩

/-- C8: supplying both optional trust arguments (in the code's sense of a
truthy value), or neither, raises `ValueError` with no request issued;
supplying exactly one issues the trust request with that argument. -/
theorem C8_trust_argument_validation (sn qr : Option String) :
    (pyTruthy sn = true → pyTruthy qr = true →
      trust sn qr =
        .validationError "only one of safety_number and qr_code_data must be set") ∧
    (pyTruthy sn = false → pyTruthy qr = false →
      trust sn qr = .validationError "safety_number or qr_code_data is required") ∧
    (pyTruthy sn = true → pyTruthy qr = false →
      trust sn qr = .requested "safety_number" (sn.getD "")) ∧
    (pyTruthy sn = false → pyTruthy qr = true →
      trust sn qr = .requested "qr_code_data" (qr.getD "")) ∧
    ((trust sn qr).isRequested = true ↔ pyTruthy sn ≠ pyTruthy qr) := by
  cases hs : pyTruthy sn <;> cases hq : pyTruthy qr <;>
    simp [trust, hs, hq, TrustResult.isRequested]

/-- C8 witness: both arguments supplied, neither supplied, and exactly one
supplied, on concrete values. -/
theorem C8_trust_argument_validation_witness :
    (pyTruthy (some "12345") = true ∧ pyTruthy (some "qrdata") = true ∧
      trust (some "12345") (some "qrdata") =
        .validationError "only one of safety_number and qr_code_data must be set") ∧
    (pyTruthy (none : Option String) = false ∧
      trust none none = .validationError "safety_number or qr_code_data is required") ∧
    trust (some "12345") none = .requested "safety_number" "12345" :=
  ⟨⟨by decide, by decide,
      (C8_trust_argument_validation (some "12345") (some "qrdata")).1
        (by decide) (by decide)⟩,
    ⟨by decide,
      (C8_trust_argument_validation none none).2.1 (by decide) (by decide)⟩,
    (C8_trust_argument_validation (some "12345") none).2.2.1 (by decide) (by decide)⟩

/-- C10: when the daemon acknowledges an unsubscribe for an account that is
not in the subscription set, `set.remove` raises an uncaught `KeyError`
(the `except` clause catches only transport-classified `UnexpectedError`,
which instead yields a failure return with the set untouched). -/
theorem C10_unsubscribe_missing_member_raises (subs : List String) (u : String)
    (h : u ∉ subs) :
    unsubscribe subs u (.ok ()) = .error PyError.keyError ∧
    (∀ msg, unsubscribe subs u (.error msg) = .ok (subs, false, [])) := by
  refine ⟨?_, fun _ => rfl⟩
  simp [unsubscribe, h]

/-- C10 witness: concrete unsubscribe of an account absent from the set. -/
theorem C10_unsubscribe_missing_member_raises_witness :
    "x" ∉ (["y"] : List String) ∧
    unsubscribe ["y"] "x" (.ok ()) = .error PyError.keyError :=
  ⟨by decide, (C10_unsubscribe_missing_member_raises ["y"] "x" (by decide)).1⟩

end Signald

namespace SignalDb

/-- C9: `get` returns absent when the read fails, returns absent when no
stored row matches the key, never lets an exception of the `try` body reach
the caller (every failing body yields absent), and returns the first
matching row when one exists. -/
theorem C9_disappearing_message_get_absent
    (table : List DisappearingMessage) (room mxid : String) (e : DbError)
    (fetched : Except DbError (Option DisappearingMessage)) :
    get (.error e) = none ∧
    ((∀ r ∈ table, ¬(r.room_id = room ∧ r.mxid = mxid)) →
      get (.ok (fetchrow table room mxid)) = none) ∧
    (∀ err, tryBody fetched = .error err → get fetched = none) ∧
    (∀ dm, fetchrow table room mxid = some dm →
      get (.ok (fetchrow table room mxid)) = some dm) := by
  refine ⟨rfl, fun hno => ?_, fun err herr => ?_, fun dm hdm => ?_⟩
  · have hfind : fetchrow table room mxid = none := by
      unfold fetchrow
      refine List.find?_eq_none.mpr fun r hr => ?_
      have := hno r hr
      simp only [Bool.and_eq_true, beq_iff_eq]
      intro hcontra
      exact this hcontra
    rw [hfind]
    rfl
  · unfold get
    rw [herr]
  · rw [hdm]
    rfl

/-- C9 witness: a concrete table where the key is absent, and a concrete
driver failure. -/
theorem C9_disappearing_message_get_absent_witness :
    (∀ r ∈ ([⟨"!a", "$1", 5, none⟩] : List DisappearingMessage),
      ¬(r.room_id = "!b" ∧ r.mxid = "$2")) ∧
    get (.ok (fetchrow [⟨"!a", "$1", 5, none⟩] "!b" "$2")) = none ∧
    get (.error (DbError.failure "connection closed")) = none :=
  ⟨by decide,
    (C9_disappearing_message_get_absent [⟨"!a", "$1", 5, none⟩] "!b" "$2"
      (DbError.failure "x") (.ok none)).2.1 (by decide),
    (C9_disappearing_message_get_absent [] "r" "m"
      (DbError.failure "connection closed") (.ok none)).1⟩

end SignalDb
